import Mathlib

/-!
Shallow embedding of `src/DecartVideoProcessor_TaskSpec.js` — the Decart video
provider adapter: input validation, the submit/poll state machine
(`DecartVideoProvider.run` / `DecartVideoProvider.result`) and the single/batch
processing pipelines.

Modelling conventions:
* JS strings are Lean `String`s; JS string helpers that the source uses
  (`split('.')`, `trim()`, `includes(..)`, `startsWith(..)`, template
  interpolation) are given explicit character-level definitions (`jsSplitDot`,
  `jsTrim`, `jsIncludes`, `jsStartsWith`, `++`), restricted to the ASCII
  alphabet the program manipulates.
* JS numbers holding byte sizes / HTTP statuses are `Nat`; the float test
  `size / (1024*1024) > 100` is exact for any realistic size (division by a
  power of two is exact in doubles), so it is embedded as
  `100 * 1024 * 1024 < size`, and `toFixed(1)` as exact decimal rounding with
  ties away from zero (`fixed1`).
* `process.env.DECART_API_KEY` is an `Option String` parameter (absent = `none`).
* Effects are explicit: each `fetch` the code performs is recorded in an
  ordered `List FetchCall` trace, and the network's behaviour in one execution
  is an oracle (`SingleNet` / `BatchNet`) giving each call's outcome.
  A JS `throw` is `Except.error` carrying the thrown value.
* `Date.now()` / `Math.random()`-derived strings (job-id nonce, generated
  file names and URLs) are oracle parameters; the code never inspects them.
-/

namespace DecartVideo

/-- JS truthiness of a `string | null | undefined` value: `null`/`undefined`
and the empty string are falsy. -/
def truthy : Option String → Bool
  | none => false
  | some s => s ≠ ""

/-- Character set trimmed by JS `String.prototype.trim` (ASCII part). -/
def isJsWhitespace (c : Char) : Bool :=
  c = ' ' || c = '\t' || c = '\n' || c = '\r' || c = '\x0b' || c = '\x0c'

/-- JS `s.trim()`: drop leading and trailing whitespace. -/
def jsTrim (s : String) : String :=
  ⟨((s.data.dropWhile isJsWhitespace).reverse.dropWhile isJsWhitespace).reverse⟩

/-- Does `sub` occur as a contiguous run inside `l`? (JS `includes` on char lists.) -/
def listIncludes (sub : List Char) : List Char → Bool
  | [] => sub.isEmpty
  | a :: rest => sub.isPrefixOf (a :: rest) || listIncludes sub rest

/-- JS `haystack.includes(sub)`. -/
def jsIncludes (haystack sub : String) : Bool :=
  listIncludes sub.data haystack.data

/-- JS `s.startsWith(pre)`. -/
def jsStartsWith (s pre : String) : Bool :=
  pre.data.isPrefixOf s.data

/-- JS `s.split('.')` (split on every occurrence of the separator character;
a string with no separator yields the one-element list holding it). -/
def splitOnChar (sep : Char) : List Char → List (List Char)
  | [] => [[]]
  | c :: rest =>
    if c = sep then [] :: splitOnChar sep rest
    else
      match splitOnChar sep rest with
      | [] => [[c]]
      | h :: t => (c :: h) :: t

/-- JS `name.split('.')` as a list of strings. -/
def jsSplitDot (s : String) : List String :=
  (splitOnChar '.' s.data).map fun l => String.mk l

/-- JS `s.toLowerCase()` on the ASCII alphabet: lowercase each character. -/
def jsToLower (s : String) : String :=
  ⟨s.data.map Char.toLower⟩

/-- JS `array.join(sep)`. -/
def joinWith (sep : String) : List String → String
  | [] => ""
  | [x] => x
  | x :: y :: rest => x ++ sep ++ joinWith sep (y :: rest)

/- `DECART_CONFIG` (source lines 10–26). -/

def endpoint : String := "https://api.decart.ai/v1/generate/lucy-pro-v2v"

def apiTimeout : Nat := 300000

def maxFileSizeMB : Nat := 100

def maxPromptLength : Nat := 1000

def supportedFormats : List String := ["mp4", "avi", "mov", "mkv", "webm"]

structure Dimensions where
  width : Nat
  height : Nat
deriving Repr, DecidableEq

def landscapeDims : Dimensions := ⟨1280, 704⟩

def portraitDims : Dimensions := ⟨704, 1280⟩

/-- Result of the JS lookup `orientations[orientation] || landscape`: one of
the two own dimension records, or a truthy member inherited from
`Object.prototype` (a function, or `Object.prototype` itself for
`__proto__`), on which reading `.width` / `.height` yields `undefined`. -/
inductive JsDims where
  | dims (d : Dimensions)
  | inherited
deriving Repr, DecidableEq

/-- JS `dimensions.width`: a number for an own record, `undefined` for an
inherited member. -/
def JsDims.width : JsDims → Option Nat
  | .dims d => some d.width
  | .inherited => none

/-- JS `dimensions.height`. -/
def JsDims.height : JsDims → Option Nat
  | .dims d => some d.height
  | .inherited => none

/-- Property names a plain object literal inherits from `Object.prototype`;
bracket lookup of any of these on `orientations` returns the truthy
inherited member, so the `||` fallback never fires. -/
def objectPrototypeProps : List String :=
  ["constructor", "hasOwnProperty", "isPrototypeOf", "propertyIsEnumerable",
   "toLocaleString", "toString", "valueOf", "__proto__", "__defineGetter__",
   "__defineSetter__", "__lookupGetter__", "__lookupSetter__"]

/-- `getOutputDimensions` (source lines 200–202):
`DECART_CONFIG.limits.orientations[orientation] || orientations.landscape`.
The bracket lookup returns the own record for the two own keys; for a
property name inherited from `Object.prototype` it returns that truthy
inherited member (the fallback never fires, and the dimensions read as
`undefined`); for every other key it returns `undefined`, so the landscape
record is the fallback. -/
def getOutputDimensions (orientation : String) : JsDims :=
  if orientation = "landscape" then .dims landscapeDims
  else if orientation = "portrait" then .dims portraitDims
  else if objectPrototypeProps.contains orientation then .inherited
  else .dims landscapeDims

/- Input data model (`DecartVideoInput`, `DecartBatchInput`, source 29–77). -/

structure DecartFile where
  path : String
  signedUrl : Option String
  mime : String
  size : Nat
  originalName : String
deriving Repr, DecidableEq

structure DecartVideoInput where
  modelCode : String
  prompt : String
  orientation : String
  enhance : Option Bool
  file : DecartFile
deriving Repr, DecidableEq

structure CsvFile where
  path : String
  signedUrl : Option String
  mime : String
  size : Nat
  prompts : List String
deriving Repr, DecidableEq

structure DecartBatchInput where
  modelCode : String
  orientation : String
  enhance : Option Bool
  videoFile : DecartFile
  csvFile : CsvFile
deriving Repr, DecidableEq

/-- The `{ valid, error? }` record returned by the validators. -/
structure ValidationResult where
  valid : Bool
  error : Option String
deriving Repr, DecidableEq

/-- JS `(size / (1024*1024)).toFixed(1)` for a byte count `size`: the double
`size / 2^20` is exact, and `toFixed` rounds to the nearest tenth taking the
larger value on a tie. -/
def fixed1 (size : Nat) : String :=
  let tenths := (20 * size + 1048576) / 2097152
  toString (tenths / 10) ++ "." ++ toString (tenths % 10)

def fileTooLargeMsg (size : Nat) : String :=
  "File too large (" ++ fixed1 size ++ "MB max " ++ toString maxFileSizeMB ++ "MB)"

/-- `input.file.originalName.split('.').pop()?.toLowerCase()` — the last
dot-segment of the name, lowercased (`pop` on a `split` result never yields
`undefined`, only possibly the empty string). -/
def fileExtensionOf (name : String) : String :=
  jsToLower ((jsSplitDot name).getLastD "")

def unsupportedTypeMsg (ext : String) : String :=
  "Unsupported file type: " ++ ext ++ ". Allowed: " ++ joinWith ", " supportedFormats

/-- `validateVideoInput` (source lines 94–140): seven short-circuit checks,
returning the first failure. -/
def validateVideoInput (input : DecartVideoInput) : ValidationResult :=
  if input.modelCode != "DecartVideo" then
    ⟨false, some ("Invalid model code: " ++ input.modelCode ++ ". Expected: DecartVideo")⟩
  else if !truthy input.file.signedUrl then
    ⟨false, some "Video file with signed URL required"⟩
  else if decide (maxFileSizeMB * 1024 * 1024 < input.file.size) then
    ⟨false, some (fileTooLargeMsg input.file.size)⟩
  else if fileExtensionOf input.file.originalName == ""
      || !supportedFormats.contains (fileExtensionOf input.file.originalName) then
    ⟨false, some (unsupportedTypeMsg (fileExtensionOf input.file.originalName))⟩
  else if input.prompt == "" || decide ((jsTrim input.prompt).length = 0) then
    ⟨false, some "Prompt is required for video transformation"⟩
  else if decide (maxPromptLength < input.prompt.length) then
    ⟨false, some ("Prompt too long (max " ++ toString maxPromptLength ++ " chars)")⟩
  else if !(["landscape", "portrait"].contains input.orientation) then
    ⟨false, some "Orientation must be either \"landscape\" or \"portrait\""⟩
  else
    ⟨true, none⟩

/-- The per-row prompt loop of `validateBatchInput` (source lines 172–180);
`i` is the 0-based index of the head of the remaining list. -/
def checkPrompts : Nat → List String → ValidationResult
  | _, [] => ⟨true, none⟩
  | i, p :: rest =>
    if p == "" || decide ((jsTrim p).length = 0) then
      ⟨false, some ("Empty prompt found at row " ++ toString (i + 1))⟩
    else if decide (maxPromptLength < p.length) then
      ⟨false, some ("Prompt at row " ++ toString (i + 1) ++ " too long (max "
        ++ toString maxPromptLength ++ " chars)")⟩
    else checkPrompts (i + 1) rest

/-- `validateBatchInput` (source lines 142–184). The
`'CSV file with prompts required'` branch guards a missing / non-array
`csvFile.prompts` and is vacuous under this typed model, where `prompts` is
always a list. -/
def validateBatchInput (input : DecartBatchInput) : ValidationResult :=
  let videoValidation := validateVideoInput
    ⟨input.modelCode, "dummy", input.orientation, none, input.videoFile⟩
  if !videoValidation.valid then videoValidation
  else if input.csvFile.prompts.isEmpty then
    ⟨false, some "CSV file must contain at least one prompt"⟩
  else checkPrompts 0 input.csvFile.prompts

/-- `isConfigured` (source lines 187–197): truthiness of
`process.env.DECART_API_KEY`. -/
def isConfigured (env : Option String) : Bool :=
  truthy env

/- Effect model: the fetches an execution performs and their outcomes. -/

/-- One `fetch` the provider performs, in order: fetching the source video
from its signed URL, or POSTing the transform endpoint (with the `X-API-KEY`
header value and the `prompt` form field). -/
inductive FetchCall where
  | video (signedUrl : Option String)
  | transform (apiKey : Option String) (prompt : String)
deriving Repr, DecidableEq

/-- A thrown JS value: an `Error` (with its `name` and `message`) or any
non-`Error` value. -/
inductive Thrown where
  | jsError (name message : String)
  | nonError
deriving Repr, DecidableEq

/-- Outcome of one transform `fetch`: a returned response (status plus the
text/binary body) or a rejection (a thrown value, e.g. an abort). -/
inductive FetchOutcome where
  | resp (status : Nat) (body : String)
  | thrown (t : Thrown)
deriving Repr, DecidableEq

/-- `response.ok`: status in the 2xx range `[200, 300)`. -/
def responseOk (status : Nat) : Bool :=
  decide (200 ≤ status) && decide (status < 300)

/-- Network behaviour of one single-video poll: the source-video fetch and
the one transform call. -/
structure SingleNet where
  videoFetch : Except Thrown String
  transform : FetchOutcome

/-- Network behaviour of one batch poll: the (single, shared) source-video
fetch and the transform call made for item `i`. -/
structure BatchNet where
  videoFetch : Except Thrown String
  items : Nat → FetchOutcome

/- Result data model (`DecartVideoOutput`, `DecartBatchOutput`, source 44–91). -/

/-- `DecartVideoOutput`. The TS type declares `width`/`height` as numbers,
but at runtime they are whatever `dimensions.width`/`.height` read —
`undefined` (`none`) when the orientation lookup hit an inherited
`Object.prototype` member. -/
structure DecartVideoOutput where
  url : String
  format : String
  width : Option Nat
  height : Option Nat
  provider : String
  model : String
  prompt : String
  orientation : String
  outputFile : Option String
deriving Repr, DecidableEq

structure BatchItemResult where
  prompt : String
  success : Bool
  videoUrl : Option String
  outputFile : Option String
  error : Option String
deriving Repr, DecidableEq, Inhabited

structure DecartBatchOutput where
  totalProcessed : Nat
  successCount : Nat
  failureCount : Nat
  results : List BatchItemResult
deriving Repr, DecidableEq

inductive DecartOutput where
  | video (o : DecartVideoOutput)
  | batch (o : DecartBatchOutput)
deriving Repr, DecidableEq

/-- `ProviderStatusResult`: the poll outcome. -/
inductive ProviderStatusResult where
  | running
  | succeeded (output : DecartOutput)
  | failed (error : String)
deriving Repr, DecidableEq

/-- `ProviderRunResult` as `run` builds it: a deferred job handle. -/
inductive ProviderRunResult where
  | deferred (providerJobId : String)
deriving Repr, DecidableEq

/-- The union type accepted by `run` / `result`. -/
inductive DecartInput where
  | single (i : DecartVideoInput)
  | batch (i : DecartBatchInput)
deriving Repr, DecidableEq

/-- `DecartVideoProvider.run` (source lines 216–253). A thrown `Error` is
`Except.error` with its message; `nonce` stands for the
`Date.now()`/`Math.random()` part of the minted job id. The second component
is the (empty) trace of fetches the call performs. -/
def run (env : Option String) (input : DecartInput) (nonce : String) :
    Except String ProviderRunResult × List FetchCall :=
  if !isConfigured env then
    (.error "Decart not configured - missing DECART_API_KEY", [])
  else
    match input with
    | .batch b =>
      let validation := validateBatchInput b
      if !validation.valid then (.error (validation.error.getD ""), [])
      else (.ok (.deferred ("decart_batch_" ++ nonce)), [])
    | .single s =>
      let validation := validateVideoInput s
      if !validation.valid then (.error (validation.error.getD ""), [])
      else (.ok (.deferred ("decart_single_" ++ nonce)), [])

/-- The message thrown on a non-2xx transform response
(`Decart API error (${response.status}): ${errorText}`, source line 330). -/
def apiErrorMsg (status : Nat) (body : String) : String :=
  "Decart API error (" ++ toString status ++ "): " ++ body

/-- `DecartVideoProvider.processSingleVideo` (source lines 294–354). `outUrl`
and `outFile` stand for the `Date.now()`-derived URL and the generated
sequential filename. Returns the result or the thrown value, plus the ordered
fetch trace. -/
def processSingleVideo (env : Option String) (input : DecartVideoInput)
    (net : SingleNet) (outUrl outFile : String) :
    Except Thrown ProviderStatusResult × List FetchCall :=
  let dims := getOutputDimensions input.orientation
  match net.videoFetch with
  | .error t => (.error t, [.video input.file.signedUrl])
  | .ok _blob =>
    match net.transform with
    | .thrown t => (.error t, [.video input.file.signedUrl, .transform env input.prompt])
    | .resp status body =>
      if responseOk status then
        (.ok (.succeeded (.video
          ⟨outUrl, "mp4", dims.width, dims.height, "decart-video", "vid2vid",
            input.prompt, input.orientation, some outFile⟩)),
         [.video input.file.signedUrl, .transform env input.prompt])
      else
        (.error (.jsError "Error" (apiErrorMsg status body)),
         [.video input.file.signedUrl, .transform env input.prompt])

/-- One iteration of the batch loop (source lines 370–418) for item `i` with
raw CSV prompt `rawPrompt` and transform outcome `outcome`; `mkUrl i` /
`mkFile i` stand for the `Date.now()`-derived video URL and generated
filename of item `i`. -/
def batchItem (i : Nat) (rawPrompt : String) (outcome : FetchOutcome)
    (mkUrl mkFile : Nat → String) : BatchItemResult :=
  let prompt := jsTrim rawPrompt
  if prompt == "" then ⟨prompt, false, none, none, some "Empty prompt"⟩
  else
    match outcome with
    | .resp status _body =>
      if responseOk status then ⟨prompt, true, some (mkUrl i), some (mkFile i), none⟩
      else ⟨prompt, false, none, none, some ("API request failed: " ++ toString status)⟩
    | .thrown (.jsError _name message) => ⟨prompt, false, none, none, some message⟩
    | .thrown .nonError => ⟨prompt, false, none, none, some "Unknown error"⟩

/-- The batch `for` loop: one result entry per prompt, in input order;
`i` is the 0-based index of the head of the remaining prompt list. -/
def batchLoop (items : Nat → FetchOutcome) (mkUrl mkFile : Nat → String) :
    Nat → List String → List BatchItemResult
  | _, [] => []
  | i, p :: rest => batchItem i p (items i) mkUrl mkFile :: batchLoop items mkUrl mkFile (i + 1) rest

/-- The transform fetches the batch loop performs, in order: one per prompt
that is non-empty after trimming (an empty-trim prompt `continue`s before the
`fetch`). -/
def batchCalls (env : Option String) : List String → List FetchCall
  | [] => []
  | p :: rest =>
    if jsTrim p == "" then batchCalls env rest
    else .transform env (jsTrim p) :: batchCalls env rest

/-- `DecartVideoProvider.processBatch` (source lines 356–439). -/
def processBatch (env : Option String) (input : DecartBatchInput)
    (net : BatchNet) (mkUrl mkFile : Nat → String) :
    Except Thrown ProviderStatusResult × List FetchCall :=
  match net.videoFetch with
  | .error t => (.error t, [.video input.videoFile.signedUrl])
  | .ok _blob =>
    let results := batchLoop net.items mkUrl mkFile 0 input.csvFile.prompts
    let successCount := (results.filter fun r => r.success).length
    let failureCount := results.length - successCount
    (.ok (.succeeded (.batch ⟨results.length, successCount, failureCount, results⟩)),
     .video input.videoFile.signedUrl :: batchCalls env input.csvFile.prompts)

/-- The `catch` block of `DecartVideoProvider.result` (source lines 269–291),
mapping a thrown value to a failed status. -/
def catchThrown (t : Thrown) : ProviderStatusResult :=
  match t with
  | .jsError name message =>
    if name == "AbortError" then
      .failed "Video processing timed out. Please try again with a smaller video."
    else if jsIncludes message "timeout" then
      .failed "Video processing is taking longer than expected. Please try again."
    else
      .failed ("Video processing failed: " ++ message)
  | .nonError => .failed "Unknown error occurred during video processing"

/-- `DecartVideoProvider.result` (source lines 255–292): the poll operation.
Dispatches on the handle prefix and the request kind, catching anything the
pipelines throw. -/
def result (env : Option String) (jobId : String) (input : Option DecartInput)
    (snet : SingleNet) (bnet : BatchNet) (outUrl outFile : String)
    (mkUrl mkFile : Nat → String) : ProviderStatusResult × List FetchCall :=
  if !jsStartsWith jobId "decart_" || input.isNone then
    (.running, [])
  else
    match input with
    | none => (.running, [])
    | some (.batch b) =>
      match processBatch env b bnet mkUrl mkFile with
      | (.ok r, calls) => (r, calls)
      | (.error t, calls) => (catchThrown t, calls)
    | some (.single s) =>
      match processSingleVideo env s snet outUrl outFile with
      | (.ok r, calls) => (r, calls)
      | (.error t, calls) => (catchThrown t, calls)

/- Spec-side restatement of the validator contract (section 4.1 of the spec):
an ordered list of (failure condition, rejection message) pairs, scanned for
the first failure. -/

/-- The seven single-request checks, in the order the spec lists them, each
paired with its rejection message. -/
def checkList (input : DecartVideoInput) : List (Bool × String) :=
  [ (input.modelCode != "DecartVideo",
      "Invalid model code: " ++ input.modelCode ++ ". Expected: DecartVideo"),
    (!truthy input.file.signedUrl, "Video file with signed URL required"),
    (decide (maxFileSizeMB * 1024 * 1024 < input.file.size),
      fileTooLargeMsg input.file.size),
    (fileExtensionOf input.file.originalName == ""
        || !supportedFormats.contains (fileExtensionOf input.file.originalName),
      unsupportedTypeMsg (fileExtensionOf input.file.originalName)),
    (input.prompt == "" || decide ((jsTrim input.prompt).length = 0),
      "Prompt is required for video transformation"),
    (decide (maxPromptLength < input.prompt.length),
      "Prompt too long (max " ++ toString maxPromptLength ++ " chars)"),
    (!(["landscape", "portrait"].contains input.orientation),
      "Orientation must be either \"landscape\" or \"portrait\"") ]

/-- Scan an ordered check list and reject with the first failing check's
message (short-circuit, not accumulate); accept when none fails. -/
def firstFailing : List (Bool × String) → ValidationResult
  | [] => ⟨true, none⟩
  | (b, m) :: rest => if b then ⟨false, some m⟩ else firstFailing rest

/- Helper lemmas. -/

theorem isPrefixOf_append_left (l t : List Char) : l.isPrefixOf (l ++ t) = true := by
  induction l with
  | nil => simp [List.isPrefixOf]
  | cons c rest ih => simp [List.isPrefixOf, ih]

theorem listIncludes_of_isPrefixOf (sub l : List Char) (h : sub.isPrefixOf l = true) :
    listIncludes sub l = true := by
  cases l with
  | nil =>
    cases sub with
    | nil => rfl
    | cons c rest => simp [List.isPrefixOf] at h
  | cons a rest => simp [listIncludes, h]

theorem listIncludes_append_left (sub pre l : List Char) (h : listIncludes sub l = true) :
    listIncludes sub (pre ++ l) = true := by
  induction pre with
  | nil => simpa using h
  | cons c rest ih => simp [listIncludes, ih]

theorem listIncludes_of_eq_append (sub l pre post : List Char)
    (h : l = pre ++ (sub ++ post)) : listIncludes sub l = true := by
  subst h
  exact listIncludes_append_left sub pre _
    (listIncludes_of_isPrefixOf sub _ (isPrefixOf_append_left sub post))

theorem splitOnChar_of_not_mem (sep : Char) (l : List Char) (h : sep ∉ l) :
    splitOnChar sep l = [l] := by
  induction l with
  | nil => rfl
  | cons c rest ih =>
    have hc : ¬ c = sep := fun hcs => h (by simp [hcs])
    have hrest : sep ∉ rest := fun hm => h (List.mem_cons_of_mem _ hm)
    simp [splitOnChar, hc, ih hrest]

theorem fileExtensionOf_of_no_dot (name : String) (h : '.' ∉ name.data) :
    fileExtensionOf name = jsToLower name := by
  unfold fileExtensionOf jsSplitDot
  rw [splitOnChar_of_not_mem '.' name.data h]
  rfl

theorem batchLoop_length (items : Nat → FetchOutcome) (mkUrl mkFile : Nat → String)
    (ps : List String) : ∀ i, (batchLoop items mkUrl mkFile i ps).length = ps.length := by
  induction ps with
  | nil => intro i; rfl
  | cons p rest ih => intro i; simp [batchLoop, ih]

theorem batchLoop_getD (items : Nat → FetchOutcome) (mkUrl mkFile : Nat → String)
    (ps : List String) : ∀ i j, j < ps.length →
    (batchLoop items mkUrl mkFile i ps).getD j default
      = batchItem (i + j) (ps.getD j "") (items (i + j)) mkUrl mkFile := by
  induction ps with
  | nil => intro i j hj; simp at hj
  | cons p rest ih =>
    intro i j hj
    cases j with
    | zero => simp [batchLoop, List.getD]
    | succ j' =>
      have hj' : j' < rest.length := by simpa using hj
      have harith : i + (j' + 1) = (i + 1) + j' := by omega
      simp only [batchLoop, List.getD_cons_succ, harith]
      exact ih (i + 1) j' hj'

theorem batchItem_prompt (i : Nat) (rawPrompt : String) (outcome : FetchOutcome)
    (mkUrl mkFile : Nat → String) :
    (batchItem i rawPrompt outcome mkUrl mkFile).prompt = jsTrim rawPrompt := by
  unfold batchItem
  split <;> dsimp only <;> (repeat' split) <;> rfl

theorem length_filter_of_single_failure {α : Type} (p : α → Bool) (d : α) :
    ∀ (l : List α) (k : Nat), k < l.length →
    (∀ j, j < l.length → j ≠ k → p (l.getD j d) = true) →
    p (l.getD k d) = false →
    (l.filter p).length = l.length - 1 := by
  intro l
  induction l with
  | nil => intro k hk; simp at hk
  | cons a t ih =>
    intro k hk hother hkf
    cases k with
    | zero =>
      have ha : p a = false := by simpa [List.getD] using hkf
      have htall : List.filter p t = t := by
        apply List.filter_eq_self.mpr
        intro x hx
        rcases List.mem_iff_getElem.mp hx with ⟨m, hm, hxm⟩
        have := hother (m + 1) (by simpa using Nat.succ_lt_succ hm) (Nat.succ_ne_zero m)
        have hgd : (a :: t).getD (m + 1) d = x := by
          simp [List.getD, List.getElem?_eq_getElem hm, hxm]
        rwa [hgd] at this
      simp [List.filter_cons, ha, htall]
    | succ k' =>
      have hk' : k' < t.length := by simpa using hk
      have ha : p a = true := by
        have := hother 0 (Nat.succ_pos _) (by omega)
        simpa [List.getD] using this
      have hrec : (t.filter p).length = t.length - 1 := by
        apply ih k' hk'
        · intro j hj hjk
          have := hother (j + 1) (by simpa using Nat.succ_lt_succ hj)
            (fun h => hjk (Nat.succ_injective h))
          simpa [List.getD] using this
        · simpa [List.getD] using hkf
      have hlen : 1 ≤ t.length := Nat.lt_of_lt_of_le (Nat.zero_lt_succ k') hk'
      simp [List.filter_cons, ha, hrec]
      omega

theorem getD_of_getElem {α : Type} (l : List α) (n : Nat) (d : α) (h : n < l.length) :
    l.getD n d = l[n] := by
  simp [List.getD_eq_getElem?_getD, List.getElem?_eq_getElem h]

theorem processBatch_ok (env : Option String) (input : DecartBatchInput)
    (net : BatchNet) (mkUrl mkFile : Nat → String) (blob : String)
    (hfetch : net.videoFetch = Except.ok blob) :
    processBatch env input net mkUrl mkFile
      = (Except.ok (.succeeded (.batch
          ⟨(batchLoop net.items mkUrl mkFile 0 input.csvFile.prompts).length,
            ((batchLoop net.items mkUrl mkFile 0 input.csvFile.prompts).filter
              fun r => r.success).length,
            (batchLoop net.items mkUrl mkFile 0 input.csvFile.prompts).length
              - ((batchLoop net.items mkUrl mkFile 0 input.csvFile.prompts).filter
                fun r => r.success).length,
            batchLoop net.items mkUrl mkFile 0 input.csvFile.prompts⟩)),
         .video input.videoFile.signedUrl :: batchCalls env input.csvFile.prompts) := by
  unfold processBatch
  rw [hfetch]

theorem batchLoop_getD_zero (items : Nat → FetchOutcome) (mkUrl mkFile : Nat → String)
    (ps : List String) (i : Nat) (hi : i < ps.length) :
    (batchLoop items mkUrl mkFile 0 ps).getD i default
      = batchItem i (ps.getD i "") (items i) mkUrl mkFile := by
  simpa using batchLoop_getD items mkUrl mkFile ps 0 i hi

theorem isPrefixOf_self (l : List Char) : l.isPrefixOf l = true := by
  induction l with
  | nil => simp [List.isPrefixOf]
  | cons c rest ih => simp [List.isPrefixOf, ih]

theorem jsIncludes_of_split_right (s pre sub : String) (h : s = pre ++ sub) :
    jsIncludes s sub = true := by
  subst h
  unfold jsIncludes
  exact listIncludes_append_left sub.data pre.data _
    (listIncludes_of_isPrefixOf sub.data _ (isPrefixOf_self sub.data))

theorem processSingleVideo_calls (env : Option String) (s : DecartVideoInput)
    (snet : SingleNet) (outUrl outFile blob : String)
    (hfetch : snet.videoFetch = Except.ok blob) :
    (processSingleVideo env s snet outUrl outFile).2
      = [.video s.file.signedUrl, .transform env s.prompt] := by
  unfold processSingleVideo
  rw [hfetch]
  rcases snet.transform with ⟨status, body⟩ | t
  · dsimp only
    split <;> rfl
  · rfl

theorem result_single_calls (env : Option String) (jobId : String)
    (s : DecartVideoInput) (snet : SingleNet) (bnet : BatchNet)
    (outUrl outFile : String) (mkUrl mkFile : Nat → String) (blob : String)
    (hjob : jsStartsWith jobId "decart_" = true)
    (hfetch : snet.videoFetch = Except.ok blob) :
    (result env jobId (some (.single s)) snet bnet outUrl outFile mkUrl mkFile).2
      = [.video s.file.signedUrl, .transform env s.prompt] := by
  unfold result
  rw [if_neg (by simp [hjob])]
  dsimp only
  rcases htr : snet.transform with ⟨status, body⟩ | t
  · by_cases hok : responseOk status = true
    · have hps : processSingleVideo env s snet outUrl outFile
          = (Except.ok (.succeeded (.video
              ⟨outUrl, "mp4", (getOutputDimensions s.orientation).width,
                (getOutputDimensions s.orientation).height, "decart-video", "vid2vid",
                s.prompt, s.orientation, some outFile⟩)),
             [.video s.file.signedUrl, .transform env s.prompt]) := by
        unfold processSingleVideo
        rw [hfetch, htr]
        simp [hok]
      rw [hps]
    · have hok' : responseOk status = false := by simpa using hok
      have hps : processSingleVideo env s snet outUrl outFile
          = (Except.error (.jsError "Error" (apiErrorMsg status body)),
             [.video s.file.signedUrl, .transform env s.prompt]) := by
        unfold processSingleVideo
        rw [hfetch, htr]
        simp [hok']
      rw [hps]
  · have hps : processSingleVideo env s snet outUrl outFile
        = (Except.error t, [.video s.file.signedUrl, .transform env s.prompt]) := by
      unfold processSingleVideo
      rw [hfetch, htr]
    rw [hps]

theorem validate_eq_firstFailing (input : DecartVideoInput) :
    validateVideoInput input = firstFailing (checkList input) := rfl

theorem jsIncludes_of_split (s pre sub post : String) (h : s = pre ++ sub ++ post) :
    jsIncludes s sub = true := by
  subst h
  unfold jsIncludes
  apply listIncludes_of_eq_append _ _ pre.data post.data
  simp [List.append_assoc]

theorem validateVideoInput_orientation_of_valid {input : DecartVideoInput}
    (h : (validateVideoInput input).valid = true) :
    input.orientation = "landscape" ∨ input.orientation = "portrait" := by
  unfold validateVideoInput at h
  split_ifs at h
  all_goals simp_all
  tauto

theorem validateVideoInput_not_valid_of_bad_orientation {input : DecartVideoInput}
    (h1 : input.orientation ≠ "landscape") (h2 : input.orientation ≠ "portrait") :
    (validateVideoInput input).valid = false := by
  unfold validateVideoInput
  split_ifs
  all_goals simp_all

/- Claim theorems. -/

/-- C5: given a single-video request, `validateVideoInput` checks in exactly
this order and returns the first failing reason (short-circuit, not
accumulate): (1) model tag equals the supported value, (2) a fetchable video
reference is present, (3) size in MB at most 100 with the computed size
embedded in the rejection message, (4) extension in
`{mp4, avi, mov, mkv, webm}` case-insensitively, (5) prompt non-empty after
trimming, (6) prompt at most 1000 characters, (7) orientation exactly
"landscape" or "portrait" — i.e. the validator equals the first-failure scan
of `checkList`, which lists those checks in that order, so a request
violating several checks is rejected with the earliest one's reason; and the
size rejection message embeds the computed size. -/
theorem validate_order_first_fail (input : DecartVideoInput) :
    validateVideoInput input = firstFailing (checkList input)
    ∧ jsIncludes (fileTooLargeMsg input.file.size) (fixed1 input.file.size) = true := by
  constructor
  · rfl
  · exact jsIncludes_of_split _ "File too large (" _
      ("MB max " ++ toString maxFileSizeMB ++ "MB)")
      (by simp [fileTooLargeMsg, String.append_assoc])

/-- C10 counterexample: the dotless filename "avi" differs from "mp4", yet a
request carrying it passes validation entirely (its whole lowercased name is
the extension and is in the supported set) — refuting the claim that every
dotless name other than "mp4" is rejected as an unsupported file type. -/
theorem dotless_avi_passes :
    validateVideoInput ⟨"DecartVideo", "a robot", "landscape", none,
      ⟨"p", some "https://v", "video/mp4", 1000, "avi"⟩⟩ = ⟨true, none⟩
    ∧ '.' ∉ "avi".data
    ∧ "avi" ≠ "mp4" :=
  ⟨rfl, by decide, by decide⟩

/-- C10 (amended): when the file's `originalName` contains no dot, the
validator's extension is the entire lowercased filename; assuming checks 1–3
pass, the format check passes exactly when that lowercased name is one of
`{mp4, avi, mov, mkv, webm}` (validation then continuing with the remaining
checks), and any other dotless name is rejected as an unsupported file
type. -/
theorem dotless_extension_uses_whole_name (input : DecartVideoInput)
    (hdot : '.' ∉ input.file.originalName.data)
    (h1 : input.modelCode = "DecartVideo")
    (h2 : truthy input.file.signedUrl = true)
    (h3 : input.file.size ≤ maxFileSizeMB * 1024 * 1024) :
    fileExtensionOf input.file.originalName = jsToLower input.file.originalName
    ∧ (supportedFormats.contains (jsToLower input.file.originalName) = true →
        validateVideoInput input = firstFailing ((checkList input).drop 4))
    ∧ (supportedFormats.contains (jsToLower input.file.originalName) = false →
        validateVideoInput input
          = ⟨false, some (unsupportedTypeMsg (jsToLower input.file.originalName))⟩) := by
  have hext := fileExtensionOf_of_no_dot _ hdot
  have c1 : (input.modelCode != "DecartVideo") = false := by simp [h1]
  have c2 : (!truthy input.file.signedUrl) = false := by simp [h2]
  have c3 : decide (maxFileSizeMB * 1024 * 1024 < input.file.size) = false := by
    simpa using Nat.not_lt.mpr h3
  refine ⟨hext, ?_, ?_⟩
  · intro hc
    have hmem : jsToLower input.file.originalName ∈ supportedFormats := List.elem_iff.mp hc
    have hne : (jsToLower input.file.originalName == "") = false := by
      have hmem' := hmem
      simp only [supportedFormats, List.mem_cons, List.not_mem_nil, or_false] at hmem'
      rcases hmem' with h | h | h | h | h <;> simp [h]
    have c4 : (fileExtensionOf input.file.originalName == ""
        || !supportedFormats.contains (fileExtensionOf input.file.originalName)) = false := by
      rw [hext, hne, hc]; rfl
    rw [validate_eq_firstFailing]
    simp only [checkList, List.drop, firstFailing]
    rw [if_neg (by simp [c1]), if_neg (by simp [c2]), if_neg (by simp [c3]),
      if_neg (by rw [c4]; simp)]
  · intro hc
    have c4 : (fileExtensionOf input.file.originalName == ""
        || !supportedFormats.contains (fileExtensionOf input.file.originalName)) = true := by
      rw [hext, hc]; simp
    rw [validate_eq_firstFailing]
    simp only [checkList, firstFailing]
    rw [if_neg (by simp [c1]), if_neg (by simp [c2]), if_neg (by simp [c3]),
      if_pos c4, hext]

/-- C6: for every validated single request whose upstream call succeeds, the
succeeded output has width 1280 and height 704 when the orientation is
"landscape" and width 704 and height 1280 when it is "portrait", format "mp4",
and echoes the request's prompt and orientation; and validation accepts no
orientation outside these two values. -/
theorem single_success_output (env : Option String) (input : DecartVideoInput)
    (net : SingleNet) (outUrl outFile blob : String) (status : Nat) (body : String)
    (hv : (validateVideoInput input).valid = true)
    (hfetch : net.videoFetch = Except.ok blob)
    (htr : net.transform = FetchOutcome.resp status body)
    (hok : responseOk status = true) :
    ∃ out : DecartVideoOutput,
      (processSingleVideo env input net outUrl outFile).1
        = Except.ok (.succeeded (.video out))
      ∧ out.format = "mp4"
      ∧ out.prompt = input.prompt
      ∧ out.orientation = input.orientation
      ∧ (input.orientation = "landscape" → out.width = some 1280 ∧ out.height = some 704)
      ∧ (input.orientation = "portrait" → out.width = some 704 ∧ out.height = some 1280)
      ∧ (input.orientation = "landscape" ∨ input.orientation = "portrait") := by
  refine ⟨⟨outUrl, "mp4", (getOutputDimensions input.orientation).width,
      (getOutputDimensions input.orientation).height, "decart-video", "vid2vid",
      input.prompt, input.orientation, some outFile⟩, ?_, rfl, rfl, rfl, ?_, ?_, ?_⟩
  · unfold processSingleVideo
    rw [hfetch, htr]
    simp [hok]
  · intro h; rw [h]; exact ⟨rfl, rfl⟩
  · intro h; rw [h]; exact ⟨rfl, rfl⟩
  · exact validateVideoInput_orientation_of_valid hv

/-- Witness for C6, on the spec's scenario: a portrait request for
"clip.mov" (40 MB) with prompt "turn the person into a robot" validates, and
a 200 upstream response yields the succeeded 704×1280 mp4 output echoing the
prompt and orientation. -/
theorem single_success_output_witness :
    ∃ out : DecartVideoOutput,
      (processSingleVideo (some "key")
        ⟨"DecartVideo", "turn the person into a robot", "portrait", none,
          ⟨"p", some "https://v", "video/quicktime", 41943040, "clip.mov"⟩⟩
        ⟨Except.ok "blob", FetchOutcome.resp 200 "bin"⟩ "u" "f").1
        = Except.ok (.succeeded (.video out))
      ∧ out.format = "mp4"
      ∧ out.prompt = "turn the person into a robot"
      ∧ out.orientation = "portrait"
      ∧ ("portrait" = "landscape" → out.width = some 1280 ∧ out.height = some 704)
      ∧ ("portrait" = "portrait" → out.width = some 704 ∧ out.height = some 1280)
      ∧ ("portrait" = "landscape" ∨ ("portrait" : String) = "portrait") :=
  single_success_output (some "key")
    ⟨"DecartVideo", "turn the person into a robot", "portrait", none,
      ⟨"p", some "https://v", "video/quicktime", 41943040, "clip.mov"⟩⟩
    ⟨Except.ok "blob", FetchOutcome.resp 200 "bin"⟩ "u" "f" "blob" 200 "bin"
    rfl rfl rfl rfl

/-- C7: polling with a job handle that does not start with the provider's
"decart_" namespace, or polling without the original request context,
returns a non-terminal running outcome (performing no fetch) rather than
throwing or returning an error. -/
theorem unrecognized_handle_running (env : Option String) (jobId : String)
    (input : Option DecartInput) (snet : SingleNet) (bnet : BatchNet)
    (outUrl outFile : String) (mkUrl mkFile : Nat → String)
    (h : jsStartsWith jobId "decart_" = false ∨ input = none) :
    result env jobId input snet bnet outUrl outFile mkUrl mkFile
      = (ProviderStatusResult.running, []) := by
  unfold result
  rcases h with h | h
  · rw [if_pos (by simp [h])]
  · subst h
    rw [if_pos (by simp)]

/-- Witness for C7: a handle from another provider, with no request context,
polls as running. -/
theorem unrecognized_handle_running_witness :
    result none "replicate_42" none ⟨Except.ok "", FetchOutcome.resp 200 ""⟩
      ⟨Except.ok "", fun _ => FetchOutcome.resp 200 ""⟩ "" "" (fun _ => "") (fun _ => "")
      = (ProviderStatusResult.running, []) :=
  unrecognized_handle_running none "replicate_42" none _ _ "" "" _ _ (Or.inl rfl)

/-- C9 counterexample: polling with orientation "toString" — a string
outside {landscape, portrait} — does not yield the landscape 1280×704
fallback: the lookup returns the truthy member inherited from
`Object.prototype`, the `||` fallback never fires, and the succeeded output's
width and height are undefined (`none`), refuting the claim that the
pipelines use the landscape dimensions for every such orientation. -/
theorem poll_inherited_key_dims_undefined :
    ("toString" : String) ≠ "landscape"
    ∧ ("toString" : String) ≠ "portrait"
    ∧ (validateVideoInput ⟨"DecartVideo", "a robot", "toString", none,
        ⟨"p", some "https://v", "video/mp4", 1000, "clip.mp4"⟩⟩).valid = false
    ∧ result (some "key") "decart_single_7"
        (some (.single ⟨"DecartVideo", "a robot", "toString", none,
          ⟨"p", some "https://v", "video/mp4", 1000, "clip.mp4"⟩⟩))
        ⟨Except.ok "blob", FetchOutcome.resp 200 "bin"⟩
        ⟨Except.ok "", fun _ => FetchOutcome.resp 200 ""⟩ "u" "f"
        (fun _ => "") (fun _ => "")
        = (ProviderStatusResult.succeeded (.video
            ⟨"u", "mp4", none, none, "decart-video", "vid2vid", "a robot",
              "toString", some "f"⟩),
           [.video (some "https://v"), .transform (some "key") "a robot"]) :=
  ⟨by decide, by decide, rfl, rfl⟩

/-- C9 (amended): the poll operation never re-validates the supplied request
— any orientation outside {"landscape", "portrait"} fails validation, yet a
successful poll still returns succeeded, its dimensions read from the
orientation lookup; when that orientation is additionally not a property
name inherited from `Object.prototype`, the pipelines silently use the
landscape 1280×704 fallback, while for an inherited name the lookup returns
the truthy inherited member, the fallback never fires, and width and height
are undefined. -/
theorem poll_no_revalidation_landscape_fallback (env : Option String)
    (jobId : String) (input : DecartVideoInput) (snet : SingleNet) (bnet : BatchNet)
    (outUrl outFile : String) (mkUrl mkFile : Nat → String) (blob : String)
    (status : Nat) (body : String)
    (hjob : jsStartsWith jobId "decart_" = true)
    (h1 : input.orientation ≠ "landscape") (h2 : input.orientation ≠ "portrait")
    (hfetch : snet.videoFetch = Except.ok blob)
    (htr : snet.transform = FetchOutcome.resp status body)
    (hok : responseOk status = true) :
    (validateVideoInput input).valid = false
    ∧ (result env jobId (some (.single input)) snet bnet outUrl outFile mkUrl mkFile).1
        = ProviderStatusResult.succeeded (.video
            ⟨outUrl, "mp4", (getOutputDimensions input.orientation).width,
              (getOutputDimensions input.orientation).height, "decart-video", "vid2vid",
              input.prompt, input.orientation, some outFile⟩)
    ∧ (objectPrototypeProps.contains input.orientation = false →
        (getOutputDimensions input.orientation).width = some 1280
        ∧ (getOutputDimensions input.orientation).height = some 704)
    ∧ (objectPrototypeProps.contains input.orientation = true →
        (getOutputDimensions input.orientation).width = none
        ∧ (getOutputDimensions input.orientation).height = none) := by
  refine ⟨validateVideoInput_not_valid_of_bad_orientation h1 h2, ?_, ?_, ?_⟩
  · unfold result
    rw [if_neg (by simp [hjob])]
    have hp : processSingleVideo env input snet outUrl outFile
        = (Except.ok (.succeeded (.video
            ⟨outUrl, "mp4", (getOutputDimensions input.orientation).width,
              (getOutputDimensions input.orientation).height, "decart-video", "vid2vid",
              input.prompt, input.orientation, some outFile⟩)),
           [.video input.file.signedUrl, .transform env input.prompt]) := by
      unfold processSingleVideo
      rw [hfetch, htr]
      simp [hok]
    simp [hp]
  · intro hnp
    unfold getOutputDimensions
    rw [if_neg h1, if_neg h2, if_neg (by rw [hnp]; simp)]
    exact ⟨rfl, rfl⟩
  · intro hp
    unfold getOutputDimensions
    rw [if_neg h1, if_neg h2, if_pos hp]
    exact ⟨rfl, rfl⟩

/-- Witness for C9's amended statement: polling a valid handle with
orientation "diagonal" (which validation rejects, and which is not an
inherited `Object.prototype` name) and a 200 upstream response returns
succeeded with the landscape 1280×704 fallback. -/
theorem poll_no_revalidation_landscape_fallback_witness :
    (validateVideoInput ⟨"DecartVideo", "a robot", "diagonal", none,
        ⟨"p", some "https://v", "video/mp4", 1000, "clip.mp4"⟩⟩).valid = false
    ∧ (result (some "key") "decart_single_7"
        (some (.single ⟨"DecartVideo", "a robot", "diagonal", none,
          ⟨"p", some "https://v", "video/mp4", 1000, "clip.mp4"⟩⟩))
        ⟨Except.ok "blob", FetchOutcome.resp 200 "bin"⟩
        ⟨Except.ok "", fun _ => FetchOutcome.resp 200 ""⟩ "u" "f"
        (fun _ => "") (fun _ => "")).1
        = ProviderStatusResult.succeeded (.video
            ⟨"u", "mp4", (getOutputDimensions "diagonal").width,
              (getOutputDimensions "diagonal").height, "decart-video", "vid2vid",
              "a robot", "diagonal", some "f"⟩)
    ∧ (objectPrototypeProps.contains "diagonal" = false →
        (getOutputDimensions "diagonal").width = some 1280
        ∧ (getOutputDimensions "diagonal").height = some 704)
    ∧ (objectPrototypeProps.contains "diagonal" = true →
        (getOutputDimensions "diagonal").width = none
        ∧ (getOutputDimensions "diagonal").height = none) :=
  poll_no_revalidation_landscape_fallback (some "key") "decart_single_7"
    ⟨"DecartVideo", "a robot", "diagonal", none,
      ⟨"p", some "https://v", "video/mp4", 1000, "clip.mp4"⟩⟩
    ⟨Except.ok "blob", FetchOutcome.resp 200 "bin"⟩
    ⟨Except.ok "", fun _ => FetchOutcome.resp 200 ""⟩ "u" "f"
    (fun _ => "") (fun _ => "") "blob" 200 "bin"
    rfl (by decide) (by decide) rfl rfl rfl

/-- C1: for every validated batch request with N prompts (whose shared-video
fetch succeeds), the pipeline attempts every prompt in input order even when
earlier items fail — the fetch trace lists one upstream call per (non-blank)
prompt independently of any item's outcome, and the i-th result entry is
determined by the i-th prompt and the i-th network outcome alone — and
returns a BatchOutput with totalProcessed = N, exactly one result entry per
prompt in input order, successCount the number of successful entries and
failureCount the number of failed ones; in particular, when item k
(0-indexed here) fails and all others succeed, successCount = N - 1,
failureCount = 1 and results[k] carries the failure. -/
theorem batch_accounting (env : Option String) (input : DecartBatchInput)
    (net : BatchNet) (mkUrl mkFile : Nat → String) (blob : String)
    (_hvalid : (validateBatchInput input).valid = true)
    (hfetch : net.videoFetch = Except.ok blob) :
    ∃ out : DecartBatchOutput,
      processBatch env input net mkUrl mkFile
        = (Except.ok (.succeeded (.batch out)),
           FetchCall.video input.videoFile.signedUrl :: batchCalls env input.csvFile.prompts)
      ∧ out.totalProcessed = input.csvFile.prompts.length
      ∧ out.results.length = input.csvFile.prompts.length
      ∧ (∀ i, i < input.csvFile.prompts.length →
          out.results.getD i default
            = batchItem i (input.csvFile.prompts.getD i "") (net.items i) mkUrl mkFile)
      ∧ out.successCount = (out.results.filter fun r => r.success).length
      ∧ out.failureCount = (out.results.filter fun r => !r.success).length
      ∧ out.successCount + out.failureCount = input.csvFile.prompts.length
      ∧ (∀ k, k < input.csvFile.prompts.length →
          (∀ j, j < input.csvFile.prompts.length → j ≠ k →
            (batchItem j (input.csvFile.prompts.getD j "") (net.items j) mkUrl mkFile).success
              = true) →
          (batchItem k (input.csvFile.prompts.getD k "") (net.items k) mkUrl mkFile).success
            = false →
          out.successCount = input.csvFile.prompts.length - 1
          ∧ out.failureCount = 1
          ∧ (out.results.getD k default).success = false) := by
  have hlen : (batchLoop net.items mkUrl mkFile 0 input.csvFile.prompts).length
      = input.csvFile.prompts.length := batchLoop_length _ _ _ _ 0
  have hget := batchLoop_getD_zero net.items mkUrl mkFile input.csvFile.prompts
  have hsplit : (batchLoop net.items mkUrl mkFile 0 input.csvFile.prompts).length
      = ((batchLoop net.items mkUrl mkFile 0 input.csvFile.prompts).filter
          fun r => r.success).length
        + ((batchLoop net.items mkUrl mkFile 0 input.csvFile.prompts).filter
          fun r => !r.success).length := by
    simpa using List.length_eq_length_filter_add
      (l := batchLoop net.items mkUrl mkFile 0 input.csvFile.prompts) fun r => r.success
  refine ⟨_, processBatch_ok env input net mkUrl mkFile blob hfetch,
    hlen, hlen, fun i hi => hget i hi, rfl, ?_, ?_, ?_⟩
  · show (batchLoop net.items mkUrl mkFile 0 input.csvFile.prompts).length
        - ((batchLoop net.items mkUrl mkFile 0 input.csvFile.prompts).filter
            fun r => r.success).length
      = ((batchLoop net.items mkUrl mkFile 0 input.csvFile.prompts).filter
          fun r => !r.success).length
    omega
  · show ((batchLoop net.items mkUrl mkFile 0 input.csvFile.prompts).filter
        fun r => r.success).length
      + ((batchLoop net.items mkUrl mkFile 0 input.csvFile.prompts).length
        - ((batchLoop net.items mkUrl mkFile 0 input.csvFile.prompts).filter
            fun r => r.success).length)
      = input.csvFile.prompts.length
    omega
  · intro k hk hother hkfail
    have hkR : k < (batchLoop net.items mkUrl mkFile 0 input.csvFile.prompts).length :=
      hlen ▸ hk
    have hSC : ((batchLoop net.items mkUrl mkFile 0 input.csvFile.prompts).filter
        fun r => r.success).length
        = (batchLoop net.items mkUrl mkFile 0 input.csvFile.prompts).length - 1 := by
      refine length_filter_of_single_failure (fun r => r.success) default _ k hkR ?_ ?_
      · intro j hj hjk
        rw [hget j (hlen ▸ hj)]
        exact hother j (hlen ▸ hj) hjk
      · rw [hget k hk]
        exact hkfail
    refine ⟨?_, ?_, ?_⟩
    · show ((batchLoop net.items mkUrl mkFile 0 input.csvFile.prompts).filter
          fun r => r.success).length
        = input.csvFile.prompts.length - 1
      rw [hSC, hlen]
    · show (batchLoop net.items mkUrl mkFile 0 input.csvFile.prompts).length
          - ((batchLoop net.items mkUrl mkFile 0 input.csvFile.prompts).filter
              fun r => r.success).length
        = 1
      omega
    · rw [hget k hk]
      exact hkfail

/-- Witness for C1: a two-prompt batch where item 0 gets a 500 and item 1 a
200 — both attempted, totals 2, one success, one failure, the failure at
index 0. -/
theorem batch_accounting_witness :
    (validateBatchInput ⟨"DecartVideo", "landscape", none,
        ⟨"p", some "u", "video/mp4", 1000, "a.mp4"⟩,
        ⟨"c", none, "text/csv", 10, ["hello", "world"]⟩⟩).valid = true
    ∧ ∃ out : DecartBatchOutput,
        (processBatch (some "key")
          ⟨"DecartVideo", "landscape", none,
            ⟨"p", some "u", "video/mp4", 1000, "a.mp4"⟩,
            ⟨"c", none, "text/csv", 10, ["hello", "world"]⟩⟩
          ⟨Except.ok "blob", fun i => if i = 0 then FetchOutcome.resp 500 "boom"
            else FetchOutcome.resp 200 "bin"⟩
          (fun _ => "u") (fun _ => "f")).1 = Except.ok (.succeeded (.batch out))
        ∧ out.totalProcessed = 2
        ∧ out.successCount = 1
        ∧ out.failureCount = 1
        ∧ (out.results.getD 0 default).success = false := by
  refine ⟨rfl, ?_⟩
  obtain ⟨out, h1, h2, h3, h4, h5, h6, h7, h8⟩ :=
    batch_accounting (some "key")
      ⟨"DecartVideo", "landscape", none,
        ⟨"p", some "u", "video/mp4", 1000, "a.mp4"⟩,
        ⟨"c", none, "text/csv", 10, ["hello", "world"]⟩⟩
      ⟨Except.ok "blob", fun i => if i = 0 then FetchOutcome.resp 500 "boom"
        else FetchOutcome.resp 200 "bin"⟩
      (fun _ => "u") (fun _ => "f") "blob" rfl rfl
  obtain ⟨h9, h10, h11⟩ := h8 0 (by decide)
    (by intro j hj hjk
        have hj2 : j < 2 := by simpa using hj
        interval_cases j
        · exact absurd rfl hjk
        · rfl)
    rfl
  exact ⟨out, by rw [h1], h2, by rw [h9]; rfl, h10, h11⟩

/-- C2: for every validated batch request (whose shared-video fetch
succeeds), polling a recognized handle returns a terminal top-level
succeeded outcome wrapping the full BatchOutput regardless of the per-item
network outcomes; in particular when every per-item entry failed, the top
level is still succeeded, with successCount 0 and failureCount equal to
totalProcessed — the caller must inspect per-item results and the failure
count to detect partial or total failure. -/
theorem batch_top_level_succeeded (env : Option String) (jobId : String)
    (input : DecartBatchInput) (snet : SingleNet) (bnet : BatchNet)
    (outUrl outFile : String) (mkUrl mkFile : Nat → String) (blob : String)
    (_hvalid : (validateBatchInput input).valid = true)
    (hjob : jsStartsWith jobId "decart_" = true)
    (hfetch : bnet.videoFetch = Except.ok blob) :
    ∃ out : DecartBatchOutput,
      (result env jobId (some (.batch input)) snet bnet outUrl outFile mkUrl mkFile).1
        = ProviderStatusResult.succeeded (.batch out)
      ∧ ((∀ i, i < out.results.length → (out.results.getD i default).success = false) →
          out.successCount = 0 ∧ out.failureCount = out.totalProcessed) := by
  refine ⟨⟨(batchLoop bnet.items mkUrl mkFile 0 input.csvFile.prompts).length,
      ((batchLoop bnet.items mkUrl mkFile 0 input.csvFile.prompts).filter
        fun r => r.success).length,
      (batchLoop bnet.items mkUrl mkFile 0 input.csvFile.prompts).length
        - ((batchLoop bnet.items mkUrl mkFile 0 input.csvFile.prompts).filter
          fun r => r.success).length,
      batchLoop bnet.items mkUrl mkFile 0 input.csvFile.prompts⟩, ?_, ?_⟩
  · unfold result
    rw [if_neg (by simp [hjob])]
    dsimp only
    rw [processBatch_ok env input bnet mkUrl mkFile blob hfetch]
  · intro hall
    have hnil : (batchLoop bnet.items mkUrl mkFile 0 input.csvFile.prompts).filter
        (fun r => r.success) = [] := by
      refine List.filter_eq_nil_iff.mpr ?_
      intro a ha
      rcases List.mem_iff_getElem.mp ha with ⟨n, hn, rfl⟩
      have := hall n hn
      rw [getD_of_getElem _ _ _ hn] at this
      simp [this]
    constructor
    · show ((batchLoop bnet.items mkUrl mkFile 0 input.csvFile.prompts).filter
          fun r => r.success).length = 0
      rw [hnil]
      rfl
    · show (batchLoop bnet.items mkUrl mkFile 0 input.csvFile.prompts).length
          - ((batchLoop bnet.items mkUrl mkFile 0 input.csvFile.prompts).filter
            fun r => r.success).length
        = (batchLoop bnet.items mkUrl mkFile 0 input.csvFile.prompts).length
      rw [hnil]
      rfl

/-- Witness for C2: a two-prompt batch whose items both get a 500 still
polls as top-level succeeded, with successCount 0 and failureCount 2. -/
theorem batch_top_level_succeeded_witness :
    ∃ out : DecartBatchOutput,
      (result (some "key") "decart_batch_3"
        (some (.batch ⟨"DecartVideo", "landscape", none,
          ⟨"p", some "u", "video/mp4", 1000, "a.mp4"⟩,
          ⟨"c", none, "text/csv", 10, ["hello", "world"]⟩⟩))
        ⟨Except.ok "", FetchOutcome.resp 200 ""⟩
        ⟨Except.ok "blob", fun _ => FetchOutcome.resp 500 "boom"⟩
        "u" "f" (fun _ => "u") (fun _ => "f")).1
        = ProviderStatusResult.succeeded (.batch out)
      ∧ out.successCount = 0 ∧ out.failureCount = out.totalProcessed := by
  obtain ⟨out, h1, h2⟩ :=
    batch_top_level_succeeded (some "key") "decart_batch_3"
      ⟨"DecartVideo", "landscape", none,
        ⟨"p", some "u", "video/mp4", 1000, "a.mp4"⟩,
        ⟨"c", none, "text/csv", 10, ["hello", "world"]⟩⟩
      ⟨Except.ok "", FetchOutcome.resp 200 ""⟩
      ⟨Except.ok "blob", fun _ => FetchOutcome.resp 500 "boom"⟩
      "u" "f" (fun _ => "u") (fun _ => "f") "blob" rfl rfl rfl
  have hconc : (result (some "key") "decart_batch_3"
      (some (.batch ⟨"DecartVideo", "landscape", none,
        ⟨"p", some "u", "video/mp4", 1000, "a.mp4"⟩,
        ⟨"c", none, "text/csv", 10, ["hello", "world"]⟩⟩))
      ⟨Except.ok "", FetchOutcome.resp 200 ""⟩
      ⟨Except.ok "blob", fun _ => FetchOutcome.resp 500 "boom"⟩
      "u" "f" (fun _ => "u") (fun _ => "f")).1
      = ProviderStatusResult.succeeded (.batch ⟨2, 0, 2,
          [⟨"hello", false, none, none, some "API request failed: 500"⟩,
           ⟨"world", false, none, none, some "API request failed: 500"⟩]⟩) := rfl
  have hout : out = ⟨2, 0, 2,
      [⟨"hello", false, none, none, some "API request failed: 500"⟩,
       ⟨"world", false, none, none, some "API request failed: 500"⟩]⟩ := by
    have h := h1.symm.trans hconc
    simpa using h
  have hall : ∀ i, i < out.results.length → (out.results.getD i default).success = false := by
    rw [hout]
    decide
  exact ⟨out, h1, h2 hall⟩

/-- C8: for every batch run (whose shared-video fetch succeeds), the
returned BatchOutput satisfies successCount + failureCount = totalProcessed
= number of input prompts, and each result entry echoes the corresponding
input prompt after whitespace trimming, not the raw prompt. -/
theorem batch_counts_and_trimmed_prompts (env : Option String)
    (input : DecartBatchInput) (net : BatchNet) (mkUrl mkFile : Nat → String)
    (blob : String) (hfetch : net.videoFetch = Except.ok blob) :
    ∃ out : DecartBatchOutput,
      (processBatch env input net mkUrl mkFile).1 = Except.ok (.succeeded (.batch out))
      ∧ out.successCount + out.failureCount = out.totalProcessed
      ∧ out.totalProcessed = input.csvFile.prompts.length
      ∧ (∀ i, i < input.csvFile.prompts.length →
          (out.results.getD i default).prompt = jsTrim (input.csvFile.prompts.getD i "")) := by
  have hsplit : (batchLoop net.items mkUrl mkFile 0 input.csvFile.prompts).length
      = ((batchLoop net.items mkUrl mkFile 0 input.csvFile.prompts).filter
          fun r => r.success).length
        + ((batchLoop net.items mkUrl mkFile 0 input.csvFile.prompts).filter
          fun r => !r.success).length := by
    simpa using List.length_eq_length_filter_add
      (l := batchLoop net.items mkUrl mkFile 0 input.csvFile.prompts) fun r => r.success
  refine ⟨_, by rw [processBatch_ok env input net mkUrl mkFile blob hfetch], ?_,
    batchLoop_length _ _ _ _ 0, ?_⟩
  · show ((batchLoop net.items mkUrl mkFile 0 input.csvFile.prompts).filter
        fun r => r.success).length
      + ((batchLoop net.items mkUrl mkFile 0 input.csvFile.prompts).length
        - ((batchLoop net.items mkUrl mkFile 0 input.csvFile.prompts).filter
            fun r => r.success).length)
      = (batchLoop net.items mkUrl mkFile 0 input.csvFile.prompts).length
    omega
  · intro i hi
    show ((batchLoop net.items mkUrl mkFile 0 input.csvFile.prompts).getD i default).prompt
      = jsTrim (input.csvFile.prompts.getD i "")
    rw [batchLoop_getD_zero net.items mkUrl mkFile input.csvFile.prompts i hi]
    exact batchItem_prompt _ _ _ _ _

/-- Witness for C8: a batch whose raw prompts carry surrounding whitespace
has totals 2 = 1 + 1 and echoes the trimmed prompts. -/
theorem batch_counts_and_trimmed_prompts_witness :
    ∃ out : DecartBatchOutput,
      (processBatch (some "key")
        ⟨"DecartVideo", "landscape", none,
          ⟨"p", some "u", "video/mp4", 1000, "a.mp4"⟩,
          ⟨"c", none, "text/csv", 10, ["  hello ", "world"]⟩⟩
        ⟨Except.ok "blob", fun _ => FetchOutcome.resp 200 "bin"⟩
        (fun _ => "u") (fun _ => "f")).1 = Except.ok (.succeeded (.batch out))
      ∧ out.successCount + out.failureCount = out.totalProcessed
      ∧ out.totalProcessed = 2
      ∧ (out.results.getD 0 default).prompt = "hello" := by
  obtain ⟨out, h1, h2, h3, h4⟩ :=
    batch_counts_and_trimmed_prompts (some "key")
      ⟨"DecartVideo", "landscape", none,
        ⟨"p", some "u", "video/mp4", 1000, "a.mp4"⟩,
        ⟨"c", none, "text/csv", 10, ["  hello ", "world"]⟩⟩
      ⟨Except.ok "blob", fun _ => FetchOutcome.resp 200 "bin"⟩
      (fun _ => "u") (fun _ => "f") "blob" rfl
  exact ⟨out, h1, h2, h3, by rw [h4 0 (by decide)]; rfl⟩

/-- C3 counterexample: a batch item receiving status 500 with body
"Internal Server Error" records the failure message "API request failed: 500",
which does not contain the response body text — refuting the claim that every
non-2xx upstream response's error message embeds the body verbatim in both
pipelines. -/
theorem batch_error_omits_body :
    (processBatch (some "key")
      ⟨"DecartVideo", "landscape", none,
        ⟨"p", some "u", "video/mp4", 1000, "a.mp4"⟩,
        ⟨"c", none, "text/csv", 10, ["hello"]⟩⟩
      ⟨Except.ok "blob", fun _ => FetchOutcome.resp 500 "Internal Server Error"⟩
      (fun _ => "u") (fun _ => "f"))
      = (Except.ok (.succeeded (.batch ⟨1, 0, 1,
          [⟨"hello", false, none, none, some "API request failed: 500"⟩]⟩)),
         [.video (some "u"), .transform (some "key") "hello"])
    ∧ jsIncludes "API request failed: 500" "Internal Server Error" = false :=
  ⟨rfl, rfl⟩

/-- C3 (amended): a non-2xx upstream response in the single-video pipeline is
reported as a failed outcome whose message, "Video processing failed: Decart
API error (status): body", embeds both the status code and the body text
verbatim — provided the thrown message does not contain "timeout" (otherwise
the catch block substitutes a generic timeout message); a non-2xx response in
a batch item records the failure "API request failed: status", embedding the
status code but not the body text. -/
theorem upstream_error_messages (env : Option String) (jobId : String)
    (input : DecartVideoInput) (snet : SingleNet) (bnet : BatchNet)
    (outUrl outFile : String) (mkUrl mkFile : Nat → String) (blob : String)
    (status : Nat) (body : String)
    (hjob : jsStartsWith jobId "decart_" = true)
    (hfetch : snet.videoFetch = Except.ok blob)
    (htr : snet.transform = FetchOutcome.resp status body)
    (hnok : responseOk status = false)
    (hto : jsIncludes (apiErrorMsg status body) "timeout" = false) :
    ((result env jobId (some (.single input)) snet bnet outUrl outFile mkUrl mkFile).1
        = ProviderStatusResult.failed
            ("Video processing failed: " ++ apiErrorMsg status body)
      ∧ jsIncludes ("Video processing failed: " ++ apiErrorMsg status body)
          (toString status) = true
      ∧ jsIncludes ("Video processing failed: " ++ apiErrorMsg status body) body = true)
    ∧ (∀ i rawPrompt, jsTrim rawPrompt ≠ "" →
        batchItem i rawPrompt (FetchOutcome.resp status body) mkUrl mkFile
          = ⟨jsTrim rawPrompt, false, none, none,
              some ("API request failed: " ++ toString status)⟩) := by
  refine ⟨⟨?_, ?_, ?_⟩, ?_⟩
  · unfold result
    rw [if_neg (by simp [hjob])]
    dsimp only
    have hps : processSingleVideo env input snet outUrl outFile
        = (Except.error (.jsError "Error" (apiErrorMsg status body)),
           [.video input.file.signedUrl, .transform env input.prompt]) := by
      unfold processSingleVideo
      rw [hfetch, htr]
      simp [hnok]
    rw [hps]
    show catchThrown (.jsError "Error" (apiErrorMsg status body))
      = ProviderStatusResult.failed ("Video processing failed: " ++ apiErrorMsg status body)
    unfold catchThrown
    dsimp only
    rw [if_neg (by simp), if_neg (by simp [hto])]
  · refine jsIncludes_of_split _
      ("Video processing failed: " ++ "Decart API error (") (toString status)
      ("): " ++ body) ?_
    apply String.ext
    simp [apiErrorMsg]
  · refine jsIncludes_of_split_right _
      ("Video processing failed: " ++ ("Decart API error (" ++ toString status ++ "): "))
      body ?_
    apply String.ext
    simp [apiErrorMsg]
  · intro i rawPrompt hraw
    unfold batchItem
    rw [if_neg (by simp [hraw])]
    dsimp only
    rw [if_neg (by simp [hnok])]

/-- Witness for C3's amended statement: status 500 with body
"Internal Server Error" yields the single-pipeline message
"Video processing failed: Decart API error (500): Internal Server Error" and
the batch-item message "API request failed: 500". -/
theorem upstream_error_messages_witness :
    ((result (some "key") "decart_single_9"
        (some (.single ⟨"DecartVideo", "make it neon", "landscape", none,
          ⟨"p", some "https://v", "video/mp4", 1000, "clip.mp4"⟩⟩))
        ⟨Except.ok "blob", FetchOutcome.resp 500 "Internal Server Error"⟩
        ⟨Except.ok "", fun _ => FetchOutcome.resp 200 ""⟩
        "u" "f" (fun _ => "u") (fun _ => "f")).1
        = ProviderStatusResult.failed
            ("Video processing failed: " ++ apiErrorMsg 500 "Internal Server Error")
      ∧ jsIncludes ("Video processing failed: " ++ apiErrorMsg 500 "Internal Server Error")
          (toString 500) = true
      ∧ jsIncludes ("Video processing failed: " ++ apiErrorMsg 500 "Internal Server Error")
          "Internal Server Error" = true)
    ∧ (∀ i rawPrompt, jsTrim rawPrompt ≠ "" →
        batchItem i rawPrompt (FetchOutcome.resp 500 "Internal Server Error")
          (fun _ => "u") (fun _ => "f")
          = ⟨jsTrim rawPrompt, false, none, none, some ("API request failed: " ++ toString 500)⟩) :=
  upstream_error_messages (some "key") "decart_single_9"
    ⟨"DecartVideo", "make it neon", "landscape", none,
      ⟨"p", some "https://v", "video/mp4", 1000, "clip.mp4"⟩⟩
    ⟨Except.ok "blob", FetchOutcome.resp 500 "Internal Server Error"⟩
    ⟨Except.ok "", fun _ => FetchOutcome.resp 200 ""⟩
    "u" "f" (fun _ => "u") (fun _ => "f") "blob" 500 "Internal Server Error"
    rfl rfl rfl rfl rfl

/-- C4 counterexample: with the credential absent, polling a recognized
handle with full request context is not blocked — the provider performs the
video fetch and the upstream transform call (carrying the absent key) and
returns the network's outcome — refuting the claim that a missing
DECART_API_KEY blocks polling before any upstream call. -/
theorem poll_proceeds_without_key :
    result none "decart_single_1"
      (some (.single ⟨"DecartVideo", "make it neon", "landscape", none,
        ⟨"p", some "https://v", "video/mp4", 1000, "clip.mp4"⟩⟩))
      ⟨Except.ok "blob", FetchOutcome.resp 200 "bin"⟩
      ⟨Except.ok "", fun _ => FetchOutcome.resp 200 ""⟩
      "outUrl" "out.mp4" (fun _ => "") (fun _ => "")
      = (ProviderStatusResult.succeeded (.video
          ⟨"outUrl", "mp4", some 1280, some 704, "decart-video", "vid2vid",
            "make it neon", "landscape", some "out.mp4"⟩),
         [.video (some "https://v"), .transform none "make it neon"]) := rfl

/-- C4 (amended): when DECART_API_KEY is missing, submitting fails
immediately and synchronously with the configuration error, performing no
network call; polling, however, is not blocked — `result` never checks the
credential, and with that same absent environment a recognized handle with
single-request context still performs the video fetch followed by the
upstream transform call carrying the absent key. -/
theorem missing_key_blocks_submit_only (env : Option String) (input : DecartInput)
    (nonce : String) (h : isConfigured env = false) :
    run env input nonce
      = (Except.error "Decart not configured - missing DECART_API_KEY", [])
    ∧ (∀ jobId (s : DecartVideoInput) (snet : SingleNet) (bnet : BatchNet)
        (outUrl outFile : String) (mkUrl mkFile : Nat → String) (blob : String),
        jsStartsWith jobId "decart_" = true →
        snet.videoFetch = Except.ok blob →
        (result env jobId (some (.single s)) snet bnet outUrl outFile mkUrl mkFile).2
          = [.video s.file.signedUrl, .transform env s.prompt]) := by
  constructor
  · unfold run
    rw [if_pos (by simp [h])]
  · intro jobId s snet bnet outUrl outFile mkUrl mkFile blob hjob hfetch
    exact result_single_calls env jobId s snet bnet outUrl outFile mkUrl mkFile blob
      hjob hfetch

/-- Witness for C4's amended statement: with no key, submitting the sample
single request errors synchronously with an empty fetch trace, and polling
the matching handle still fetches the video and calls the upstream endpoint
with the absent key. -/
theorem missing_key_blocks_submit_only_witness :
    run none (.single ⟨"DecartVideo", "make it neon", "landscape", none,
        ⟨"p", some "https://v", "video/mp4", 1000, "clip.mp4"⟩⟩) "n"
      = (Except.error "Decart not configured - missing DECART_API_KEY", [])
    ∧ (result none "decart_single_1"
        (some (.single ⟨"DecartVideo", "make it neon", "landscape", none,
          ⟨"p", some "https://v", "video/mp4", 1000, "clip.mp4"⟩⟩))
        ⟨Except.ok "blob", FetchOutcome.resp 200 "bin"⟩
        ⟨Except.ok "", fun _ => FetchOutcome.resp 200 ""⟩
        "u" "f" (fun _ => "") (fun _ => "")).2
        = [.video (some "https://v"), .transform none "make it neon"] :=
  ⟨(missing_key_blocks_submit_only none
      (.single ⟨"DecartVideo", "make it neon", "landscape", none,
        ⟨"p", some "https://v", "video/mp4", 1000, "clip.mp4"⟩⟩) "n" rfl).1,
   (missing_key_blocks_submit_only none
      (.single ⟨"DecartVideo", "make it neon", "landscape", none,
        ⟨"p", some "https://v", "video/mp4", 1000, "clip.mp4"⟩⟩) "n" rfl).2
      "decart_single_1"
      ⟨"DecartVideo", "make it neon", "landscape", none,
        ⟨"p", some "https://v", "video/mp4", 1000, "clip.mp4"⟩⟩
      ⟨Except.ok "blob", FetchOutcome.resp 200 "bin"⟩
      ⟨Except.ok "", fun _ => FetchOutcome.resp 200 ""⟩
      "u" "f" (fun _ => "") (fun _ => "") "blob" rfl rfl⟩

/-- Witness for C10's amended statement: the dotless name "avi" — its whole
lowercased form is the extension, it is in the supported set, so validation
proceeds past the format check. -/
theorem dotless_extension_uses_whole_name_witness :
    fileExtensionOf "avi" = jsToLower "avi"
    ∧ (supportedFormats.contains (jsToLower "avi") = true →
        validateVideoInput ⟨"DecartVideo", "a robot", "landscape", none,
            ⟨"p", some "https://v", "video/mp4", 1000, "avi"⟩⟩
          = firstFailing ((checkList ⟨"DecartVideo", "a robot", "landscape", none,
              ⟨"p", some "https://v", "video/mp4", 1000, "avi"⟩⟩).drop 4))
    ∧ (supportedFormats.contains (jsToLower "avi") = false →
        validateVideoInput ⟨"DecartVideo", "a robot", "landscape", none,
            ⟨"p", some "https://v", "video/mp4", 1000, "avi"⟩⟩
          = ⟨false, some (unsupportedTypeMsg (jsToLower "avi"))⟩) :=
  dotless_extension_uses_whole_name
    ⟨"DecartVideo", "a robot", "landscape", none,
      ⟨"p", some "https://v", "video/mp4", 1000, "avi"⟩⟩
    (by decide) rfl rfl (by decide)

end DecartVideo
